import Mathlib

/-!
Verification of the storage core of the pi-code repository: the storage
monitor (`backend/services/storage_monitor.py`), the health checker
(`backend/services/storage_health_checker.py`) and the backup manager
(`backend/services/backup_manager.py`), shallowly embedded in Lean.

Modelling conventions:
* Python floats are modelled as `ℚ`; byte counts as `Nat`.  The division by
  `1024 ** 3` that converts bytes to gigabytes cancels in every ratio the
  code compares against a threshold, so ratios are computed directly on
  byte counts.
* Filesystem facts that the code merely observes (does a path exist, what
  does `shutil.disk_usage` report, is the path mounted, is it accessible)
  are inputs of the embedded functions; the file content at a path is
  modelled by its checksum, `none` meaning the file does not exist.
* The SQLite tables are modelled as in-memory state: the `storage_events`
  table as a list of `StorageEvent`, the `songs` table as a `List Song`.
  `UPDATE ... WHERE id = ?` becomes a map over the list guarded by `id`.
* A caught OS exception is an explicit input (`os_error`, or an `Option`
  that is `none` when the underlying call raises); the blanket
  `except Exception` handlers of the source become the corresponding
  branches of the embedded functions.
-/

namespace PiCode

/-! ## Data model -/

/-- The two fixed storage identities of the monitor. -/
inductive StorageType
  | primary
  | fallback
deriving DecidableEq

/-- The coarse health tier used throughout the services. -/
inductive HealthStatus
  | healthy
  | warning
  | error
deriving DecidableEq

/-- Python's banker's rounding (`round` ties go to the even integer),
on exact rationals. -/
def roundHalfEven (q : ℚ) : ℤ :=
  let f := ⌊q⌋
  let r := q - (f : ℚ)
  if r < 1 / 2 then f
  else if 1 / 2 < r then f + 1
  else if f % 2 = 0 then f else f + 1

/-- Python's `round(x, 1)` on exact rationals. -/
def pyRound1 (q : ℚ) : ℚ := (roundHalfEven (q * 10) : ℚ) / 10

/-- The dict returned by `StorageMonitor.get_storage_info`.  `capacity_gb`,
`used_gb` and `free_gb` are kept as raw byte counts (`total_bytes`,
`free_bytes`); `usage_percent` is the rounded percentage stored in the dict;
`err_text` is the `error` key present only on the exception path. -/
structure EndpointInfo where
  path : String
  is_available : Bool
  is_mounted : Bool
  total_bytes : Nat
  free_bytes : Nat
  usage_percent : ℚ
  health_status : HealthStatus
  err_text : Option String
deriving DecidableEq

/-- What the operating system reports about a path when
`get_storage_info` probes it: `path_exists` is `os.path.exists`;
`os_error` is `some e` when a call inside the `try` block (in practice
`shutil.disk_usage`) raises an OS error with text `e`; `total_bytes` and
`free_bytes` are `shutil.disk_usage`; `mounted` is `_is_path_mounted`
(mount-table lookup with a readability heuristic, taken as an input here);
`read_write_ok` is `os.access(path, os.R_OK | os.W_OK)`. -/
structure PathProbe where
  path_exists : Bool
  os_error : Option String
  total_bytes : Nat
  free_bytes : Nat
  mounted : Bool
  read_write_ok : Bool
deriving DecidableEq

/-- The usage ratio `used_gb / total_gb` computed by `get_storage_info`
(0 when the reported total is 0). -/
def usage_frac (total free : Nat) : ℚ :=
  if 0 < total then ((total - free : Nat) : ℚ) / (total : ℚ) else 0

/-- `StorageMonitor.get_storage_info(path)`.  Returns `none` when the path
does not exist (the code returns `None` before touching the disk); returns
the zeroed `error` dict when an OS error is raised inside the `try` block;
otherwise computes usage and the health tier exactly as the source:
`warning` when the usage ratio is at or above the warning threshold, else
`error` when the path is not mounted, else `healthy`; availability is
`is_mounted and os.access(path, R_OK | W_OK)`. -/
def get_storage_info (warning_threshold : ℚ) (path : String) (pr : PathProbe) :
    Option EndpointInfo :=
  if pr.path_exists = false then none
  else
    match pr.os_error with
    | some e =>
        some { path := path, is_available := false, is_mounted := false,
               total_bytes := 0, free_bytes := 0, usage_percent := 0,
               health_status := HealthStatus.error, err_text := some e }
    | none =>
        let frac := usage_frac pr.total_bytes pr.free_bytes
        let health :=
          if warning_threshold ≤ frac then HealthStatus.warning
          else if pr.mounted = false then HealthStatus.error
          else HealthStatus.healthy
        some { path := path,
               is_available := pr.mounted && pr.read_write_ok,
               is_mounted := pr.mounted,
               total_bytes := pr.total_bytes, free_bytes := pr.free_bytes,
               usage_percent := pyRound1 (frac * 100),
               health_status := health, err_text := none }

/-- Python truthiness of `info and info['is_available']` for an optional
endpoint dict. -/
def isAvail : Option EndpointInfo → Bool
  | none => false
  | some i => i.is_available

/-- A row of the append-only `storage_events` table. -/
structure StorageEvent where
  event_type : String
  storage_type : String
  message : String
deriving DecidableEq

/-- The monitor's mutable state: the active storage and the event log. -/
structure MonitorState where
  current_storage : StorageType
  events : List StorageEvent
deriving DecidableEq

/-- The string name of a storage type, as the Python code writes it. -/
def StorageType.name : StorageType → String
  | .primary => "primary"
  | .fallback => "fallback"

/-- `str.title()` of the storage name, used in the unavailable-target
error message. -/
def StorageType.titleName : StorageType → String
  | .primary => "Primary"
  | .fallback => "Fallback"

/-- The dict returned by `StorageMonitor.check_storage_health`. -/
structure HealthSnapshot where
  primary : Option EndpointInfo
  fallback : Option EndpointInfo
  current_storage : StorageType
  recommended_storage : Option StorageType
  should_switch : Bool
  overall_health : HealthStatus
deriving DecidableEq

/-- `StorageMonitor._get_overall_health`. -/
def get_overall_health : Option EndpointInfo → Option EndpointInfo → HealthStatus
  | some p, some f =>
      let ph := p.is_available && !(p.health_status == HealthStatus.error)
      let fh := f.is_available && !(f.health_status == HealthStatus.error)
      if ph && fh then HealthStatus.healthy
      else if ph || fh then HealthStatus.warning
      else HealthStatus.error
  | _, _ => HealthStatus.error

/-- `StorageMonitor.check_storage_health`, as a function of the two probe
results and the currently active storage. -/
def check_storage_health (current : StorageType)
    (primary_info fallback_info : Option EndpointInfo) : HealthSnapshot :=
  let recommended :=
    if isAvail primary_info then some StorageType.primary
    else if isAvail fallback_info then some StorageType.fallback
    else none
  let should_switch :=
    if current == StorageType.primary && !(isAvail primary_info) then
      isAvail fallback_info
    else if current == StorageType.fallback && isAvail primary_info then true
    else false
  { primary := primary_info, fallback := fallback_info,
    current_storage := current, recommended_storage := recommended,
    should_switch := should_switch,
    overall_health := get_overall_health primary_info fallback_info }

/-- The dict returned by `StorageMonitor.switch_storage`. -/
structure SwitchResult where
  success : Bool
  err_text : Option String
  message : Option String
  old_storage : Option StorageType
  new_storage : Option StorageType
deriving DecidableEq

/-- `StorageMonitor.switch_storage(target_storage)`: validates the target
name, re-probes via `check_storage_health`, rejects an unavailable target,
otherwise commits `current_storage` and appends one `switch` event.
(`_update_storage_status` only rewrites the `storage_status` snapshot rows
and adds no event; `_log_storage_event`'s own `except` branch, reachable
only on a database error, is not modelled — the event log is in-memory
state here.) -/
def switch_storage (st : MonitorState) (target_storage : String)
    (primary_info fallback_info : Option EndpointInfo) :
    MonitorState × SwitchResult :=
  if target_storage ≠ "primary" ∧ target_storage ≠ "fallback" then
    (st, { success := false, err_text := some "Invalid storage type",
           message := none, old_storage := none, new_storage := none })
  else
    let tgt := if target_storage = "primary" then StorageType.primary
               else StorageType.fallback
    let health_check := check_storage_health st.current_storage primary_info fallback_info
    let target_info := if tgt = StorageType.primary then health_check.primary
                       else health_check.fallback
    if !(isAvail target_info) then
      (st, { success := false,
             err_text := some (tgt.titleName ++ " storage is not available"),
             message := none, old_storage := none, new_storage := none })
    else
      let old := st.current_storage
      let ev : StorageEvent :=
        { event_type := "switch", storage_type := tgt.name,
          message := "Switched from " ++ old.name ++ " to " ++ tgt.name }
      ({ current_storage := tgt, events := st.events ++ [ev] },
       { success := true, err_text := none,
         message := some ("Switched to " ++ tgt.name ++ " storage"),
         old_storage := some old, new_storage := some tgt })

/-- The storage type a target string names, or `none` for an invalid one. -/
def targetOf (t : String) : Option StorageType :=
  if t = "primary" then some StorageType.primary
  else if t = "fallback" then some StorageType.fallback
  else none

/-- The probe result `check_storage_health` stores for a given storage
type. -/
def infoFor (t : StorageType) (p f : Option EndpointInfo) : Option EndpointInfo :=
  match t with
  | .primary => p
  | .fallback => f

/-- One `switch_storage` call viewed as a state transformer (the probe
results held fixed). -/
def switchStep (t : String) (p f : Option EndpointInfo) (st : MonitorState) :
    MonitorState :=
  (switch_storage st t p f).1

/-! ## Health checker (`storage_health_checker.py`)

The five diagnostic checks perform real disk I/O; their outcomes enter the
embedding as inputs (`ChecksInput`).  The space-utilization check's pure
arithmetic (`_check_space_utilization`) and the aggregation logic of
`perform_comprehensive_health_check` are translated from the source. -/

/-- Severity tag of a `storage_alerts` row. -/
inductive Severity
  | warning
  | critical
deriving DecidableEq

/-- An alert appended by `perform_comprehensive_health_check`
(type and severity; the message strings are not modelled). -/
structure HealthAlert where
  alert_type : String
  severity : Severity
deriving DecidableEq

/-- The result dict of `_check_space_utilization`: `passed`, and the
`usage_percent` key, absent (`none`) on the exception path, where the
result dict carries only an error text. -/
structure SpaceCheck where
  passed : Bool
  usage_percent : Option ℚ
deriving DecidableEq

/-- `StorageHealthChecker._check_space_utilization`.  `disk_usage` is
`shutil.disk_usage` as `(total, free)` bytes, `none` when it raises.
`warning_threshold_frac` is `Config.STORAGE_WARNING_THRESHOLD` (default
0.9); the code compares the percentage against `threshold * 100`.
A reported total of 0 raises `ZeroDivisionError`, caught by the same
`except` branch. -/
def check_space_utilization (warning_threshold_frac : ℚ)
    (disk_usage : Option (Nat × Nat)) : SpaceCheck :=
  match disk_usage with
  | none => { passed := false, usage_percent := none }
  | some (total, free) =>
      if total = 0 then { passed := false, usage_percent := none }
      else
        let used := total - free
        let pct : ℚ := (used : ℚ) / (total : ℚ) * 100
        let warning_threshold := warning_threshold_frac * 100
        { passed := decide (pct < warning_threshold),
          usage_percent := some (pyRound1 pct) }

/-- The outcomes of the five diagnostic checks of one comprehensive run
(each check's disk I/O abstracted to its pass/fail result; the space check
keeps its reported percentage, which the aggregation reads back). -/
structure ChecksInput where
  availability : Bool
  io_performance : Bool
  space : SpaceCheck
  file_system_integrity : Bool
  music_files : Bool
deriving DecidableEq

/-- Overall status plus the alerts appended during one run. -/
structure HealthReport where
  overall_status : HealthStatus
  alerts : List HealthAlert
deriving DecidableEq

/-- The last two status updates of `perform_comprehensive_health_check`
(file-system integrity, then music-file accessibility), applied to the
status and alert list accumulated so far.  Each failing check assigns a
new overall status, overwriting the previous one. -/
def tail_checks (c : ChecksInput) (s : HealthStatus) (a : List HealthAlert) :
    HealthReport :=
  let s3 := if c.file_system_integrity then s else HealthStatus.error
  let a3 := if c.file_system_integrity then a
            else a ++ [{ alert_type := "integrity", severity := Severity.critical }]
  let s4 := if c.music_files then s3 else HealthStatus.warning
  let a4 := if c.music_files then a3
            else a3 ++ [{ alert_type := "music_files", severity := Severity.warning }]
  { overall_status := s4, alerts := a4 }

/-- The aggregation of `StorageHealthChecker.perform_comprehensive_health_check`:
a failing availability check returns `error` at once; otherwise the status
starts `healthy` and each later failing check assigns `warning` or `error`
in sequence.  A failing space check whose result dict has no
`usage_percent` key (its own exception path) makes the severity line raise
`KeyError`, which the outer `except` turns into overall `error` with the
alerts accumulated so far. -/
def perform_comprehensive_health_check (c : ChecksInput) : HealthReport :=
  if c.availability = false then
    { overall_status := HealthStatus.error,
      alerts := [{ alert_type := "availability", severity := Severity.critical }] }
  else
    let s1 := if c.io_performance then HealthStatus.healthy else HealthStatus.warning
    let a1 : List HealthAlert :=
      if c.io_performance then []
      else [{ alert_type := "performance", severity := Severity.warning }]
    if c.space.passed then tail_checks c s1 a1
    else
      match c.space.usage_percent with
      | none => { overall_status := HealthStatus.error, alerts := a1 }
      | some u =>
          let sev := if 95 < u then Severity.critical else Severity.warning
          let s2 := if sev == Severity.warning then HealthStatus.warning
                    else HealthStatus.error
          tail_checks c s2 (a1 ++ [{ alert_type := "space", severity := sev }])

/-! ## Backup manager (`backup_manager.py`) -/

/-- The `storage_location` column of the `songs` table. -/
inductive StorageLocation
  | primary
  | fallback
  | both
deriving DecidableEq

/-- Song catalog columns the backup manager reads and writes
(the `songs` table). -/
structure Song where
  id : Nat
  filepath : String
  storage_location : StorageLocation
  play_count : Nat
  last_played : Nat
  date_added : Nat
  is_available : Bool
  is_backup_synced : Bool
  fallback_path : Option String
  checksum : Option String
  backup_date : Option Nat
deriving DecidableEq

/-- The filesystem as seen through checksums: `fs p = some d` means the
file at path `p` exists and its content hashes to `d`; `none` means it
does not exist. -/
def FS : Type := String → Option String

/-- `BackupManager.get_file_checksum`: the MD5 digest of the file, or the
empty string when the file cannot be read (the `except` branch). -/
def get_file_checksum (fs : FS) (filepath : String) : String :=
  (fs filepath).getD ""

/-- `BackupManager.max_backup_songs` (the SD-card capacity bound). -/
def max_backup_songs : Nat := 100

/-- `os.path.basename`: everything after the last slash. -/
def basename (p : String) : String :=
  String.mk ((p.data.reverse.takeWhile (fun c => c != '/')).reverse)

/-- The results dict of `sync_backup_storage`. -/
structure SyncResults where
  backed_up : Nat
  failed : Nat
  skipped : Nat
  total_backup_songs : Nat
deriving DecidableEq

/-- The count the sync reads at entry:
`SELECT COUNT(*) FROM songs WHERE storage_location IN ('fallback', 'both')`. -/
def backedUpCount (cat : List Song) : Nat :=
  (cat.filter (fun s =>
    s.storage_location == StorageLocation.fallback ||
    s.storage_location == StorageLocation.both)).length

/-- `BackupManager.backup_song(song)`.  `fallback_dir` is
`Config.BACKUP_FOLDER`; `copy_out src` is the digest of the bytes that
`shutil.copy2` actually lands at the destination when copying from `src`
(equal to the source digest for a faithful copy, different for a corrupted
one); `now` is `CURRENT_TIMESTAMP`.  Returns the filesystem, the catalog
and the boolean result.  Steps, as in the source: missing source returns
`False` untouched; otherwise copy, recompute both checksums, delete the
copy and return `False` on mismatch; otherwise update the song's row to
`both` with `fallback_path`, `is_backup_synced`, `backup_date` and
`checksum`.  (Other OS errors mid-copy, which the `except` branch also
turns into `False`, are not separately modelled.) -/
def backup_song (fallback_dir : String) (copy_out : String → String) (now : Nat)
    (fs : FS) (cat : List Song) (song : Song) : FS × List Song × Bool :=
  let source_path := song.filepath
  match fs source_path with
  | none => (fs, cat, false)
  | some _ =>
      let filename := basename source_path
      let fallback_filepath := fallback_dir ++ "/" ++ filename
      let fs1 : FS := fun q =>
        if q = fallback_filepath then some (copy_out source_path) else fs q
      let source_checksum := get_file_checksum fs1 source_path
      let backup_checksum := get_file_checksum fs1 fallback_filepath
      if source_checksum ≠ backup_checksum then
        (fun q => if q = fallback_filepath then none else fs1 q, cat, false)
      else
        (fs1,
         cat.map (fun s =>
           if s.id = song.id then
             { s with storage_location := StorageLocation.both,
                      fallback_path := some fallback_filepath,
                      is_backup_synced := true,
                      backup_date := some now,
                      checksum := some source_checksum }
           else s),
         true)

/-- `BackupManager._cleanup_old_backups`.  The source opens a fresh
connection WITHOUT setting `row_factory`, so `cursor.fetchall()` yields
plain tuples; the first subscript `song['fallback_path']` raises
`TypeError: tuple indices must be integers`, which the blanket
`except Exception` swallows after logging.  The loop therefore aborts
before its first `UPDATE` whenever any `both` row exists, and does nothing
when none exists: in every case the catalog (and the fallback files) are
left unchanged. -/
def cleanup_old_backups (cat : List Song) : List Song := cat

/-- `BackupManager.get_backup_candidates`: available primary-only songs,
most played first (ties broken by most recent `last_played`; the embedding
fixes SQLite's unspecified residual tie order as the stable sort order),
limited to `max_backup_songs`. -/
def get_backup_candidates (cat : List Song) : List Song :=
  ((cat.filter (fun s =>
       s.storage_location == StorageLocation.primary && s.is_available)).mergeSort
     (fun a b =>
       decide (b.play_count < a.play_count) ||
       (a.play_count == b.play_count && decide (b.last_played ≤ a.last_played)))).take
    max_backup_songs

/-- The candidate loop of `sync_backup_storage`: skip (and count) once the
in-memory `total_backup_songs` counter has reached the bound, skip songs
the snapshot already lists as `both`, otherwise run `backup_song` and
count the outcome, bumping the counter on success. -/
def syncLoop (fallback_dir : String) (copy_out : String → String) (now : Nat) :
    List Song → FS → List Song → SyncResults → FS × List Song × SyncResults
  | [], fs, cat, r => (fs, cat, r)
  | song :: rest, fs, cat, r =>
      if max_backup_songs ≤ r.total_backup_songs then
        syncLoop fallback_dir copy_out now rest fs cat
          { r with skipped := r.skipped + 1 }
      else if song.storage_location == StorageLocation.both then
        syncLoop fallback_dir copy_out now rest fs cat r
      else
        match backup_song fallback_dir copy_out now fs cat song with
        | (fs2, cat2, true) =>
            syncLoop fallback_dir copy_out now rest fs2 cat2
              { r with backed_up := r.backed_up + 1,
                       total_backup_songs := r.total_backup_songs + 1 }
        | (fs2, cat2, false) =>
            syncLoop fallback_dir copy_out now rest fs2 cat2
              { r with failed := r.failed + 1 }

/-- `BackupManager.sync_backup_storage`.  `fallback_free_bytes` is the
`free` field of `shutil.disk_usage(self.fallback_path)`, `none` when that
call raises (the outer `except` then returns the zeroed results).  Under
1 GiB free it returns at once; otherwise it reads the backed-up count,
runs `_cleanup_old_backups` when at or above the bound (see its doc
comment: that call changes nothing), fetches the candidates and runs the
loop — note the counter passed to the loop is the pre-cleanup count. -/
def sync_backup_storage (fallback_dir : String) (copy_out : String → String)
    (now : Nat) (fallback_free_bytes : Option Nat) (fs : FS) (cat : List Song) :
    FS × List Song × SyncResults :=
  match fallback_free_bytes with
  | none => (fs, cat, { backed_up := 0, failed := 0, skipped := 0, total_backup_songs := 0 })
  | some free =>
      if free < 2 ^ 30 then
        (fs, cat, { backed_up := 0, failed := 0, skipped := 0, total_backup_songs := 0 })
      else
        let n := backedUpCount cat
        let cat1 := if max_backup_songs ≤ n then cleanup_old_backups cat else cat
        let candidates := get_backup_candidates cat1
        syncLoop fallback_dir copy_out now candidates fs cat1
          { backed_up := 0, failed := 0, skipped := 0, total_backup_songs := n }

/-- The filter of `verify_backup_integrity`'s query: rows with
`storage_location IN ('fallback', 'both') AND fallback_path IS NOT NULL`. -/
def claims_backup (s : Song) : Bool :=
  (s.storage_location == StorageLocation.fallback ||
   s.storage_location == StorageLocation.both) && s.fallback_path.isSome

/-- The fallback path of a snapshot row (always present under
`claims_backup`). -/
def fb_path (s : Song) : String := s.fallback_path.getD ""

/-- Python truthiness of `song['checksum']`: a present, non-empty string. -/
def checksum_truthy (s : Song) : Bool :=
  match s.checksum with
  | some c => !(c == "")
  | none => false

/-- The results dict of `verify_backup_integrity`. -/
structure IntegrityResults where
  verified : Nat
  corrupted : Nat
  missing : Nat
deriving DecidableEq

/-- The `UPDATE` run for a missing backup: demote to primary-only. -/
def demote_missing (s : Song) : Song :=
  { s with storage_location := StorageLocation.primary,
           is_backup_synced := false, fallback_path := none }

/-- One iteration of `verify_backup_integrity`'s loop over the snapshot:
a missing fallback file is counted and its row demoted; otherwise, when a
truthy checksum is stored and the recomputed one differs, the row is
counted corrupted and left alone; otherwise it is counted verified. -/
def verify_step (fs : FS) (acc : List Song × IntegrityResults) (s : Song) :
    List Song × IntegrityResults :=
  if (fs (fb_path s)).isNone then
    (acc.1.map (fun t => if t.id = s.id then demote_missing t else t),
     { acc.2 with missing := acc.2.missing + 1 })
  else if checksum_truthy s &&
      !(get_file_checksum fs (fb_path s) == s.checksum.getD "") then
    (acc.1, { acc.2 with corrupted := acc.2.corrupted + 1 })
  else
    (acc.1, { acc.2 with verified := acc.2.verified + 1 })

/-- `BackupManager.verify_backup_integrity`: folds the loop over the
snapshot selected by `claims_backup` from the entry catalog. -/
def verify_backup_integrity (fs : FS) (cat : List Song) :
    List Song × IntegrityResults :=
  (cat.filter claims_backup).foldl (verify_step fs)
    (cat, { verified := 0, corrupted := 0, missing := 0 })

/-- "The fallback file of snapshot row `s` does not exist." -/
def missing_in (fs : FS) (s : Song) : Bool := (fs (fb_path s)).isNone

/-- "Row `s` is counted corrupted": file present, truthy stored checksum,
recomputed digest differs. -/
def corrupted_in (fs : FS) (s : Song) : Bool :=
  !(missing_in fs s) &&
    (checksum_truthy s &&
     !(get_file_checksum fs (fb_path s) == s.checksum.getD ""))

/-- "Row `s` is counted verified": file present and not counted
corrupted. -/
def verified_in (fs : FS) (s : Song) : Bool :=
  !(missing_in fs s) &&
    !(checksum_truthy s &&
      !(get_file_checksum fs (fb_path s) == s.checksum.getD ""))

/-- Demote `t` when its id is among `ids` (the ids of the snapshot rows
whose fallback file is missing). -/
def demote_if_ids (ids : List Nat) (t : Song) : Song :=
  if t.id ∈ ids then demote_missing t else t

/-! ## Sample data used by witnesses -/

/-- An available, healthy endpoint dict at path `p`. -/
def availableInfo (p : String) : EndpointInfo :=
  { path := p, is_available := true, is_mounted := true, total_bytes := 1000,
    free_bytes := 900, usage_percent := 10,
    health_status := HealthStatus.healthy, err_text := none }

/-- An unavailable, errored endpoint dict at path `p`. -/
def unavailableInfo (p : String) : EndpointInfo :=
  { path := p, is_available := false, is_mounted := false, total_bytes := 0,
    free_bytes := 0, usage_percent := 0,
    health_status := HealthStatus.error, err_text := none }

/-- A fresh monitor state: active storage `primary`, empty event log. -/
def st0 : MonitorState :=
  { current_storage := StorageType.primary, events := [] }

/-- The event `switch_storage` logs when the target equals the currently
active storage `X`. -/
def selfSwitchEvent (X : StorageType) : StorageEvent :=
  { event_type := "switch", storage_type := X.name,
    message := "Switched from " ++ X.name ++ " to " ++ X.name }

/-- A catalog of 101 songs, all with `storage_location = 'both'`. -/
def catC2 : List Song :=
  (List.range 101).map (fun i =>
    { id := i, filepath := "/m/a.mp3", storage_location := StorageLocation.both,
      play_count := i, last_played := i, date_added := 0, is_available := true,
      is_backup_synced := true, fallback_path := some "/fb/a.mp3",
      checksum := some "c", backup_date := some 0 })

/-- A primary-only song whose source file exists. -/
def songW : Song :=
  { id := 1, filepath := "/m/s.mp3", storage_location := StorageLocation.primary,
    play_count := 3, last_played := 7, date_added := 0, is_available := true,
    is_backup_synced := false, fallback_path := none, checksum := none,
    backup_date := none }

/-- A filesystem holding only `songW`'s source file, with digest `d1`. -/
def fsW : FS := fun p => if p = "/m/s.mp3" then some "d1" else none

/-- A backed-up song whose stored checksum is the EMPTY string (the value
`backup_song` writes when reading the source back fails). -/
def songC6 : Song :=
  { id := 0, filepath := "/m/x.mp3", storage_location := StorageLocation.both,
    play_count := 0, last_played := 0, date_added := 0, is_available := true,
    is_backup_synced := true, fallback_path := some "/fb/x.mp3",
    checksum := some "", backup_date := some 0 }

/-- A filesystem where `songC6`'s fallback file exists with digest `abc`,
which differs from its stored (empty) checksum. -/
def fsC6 : FS := fun p => if p = "/fb/x.mp3" then some "abc" else none

/-- A backed-up song with a proper stored checksum. -/
def songV : Song :=
  { id := 2, filepath := "/m/y.mp3", storage_location := StorageLocation.both,
    play_count := 0, last_played := 0, date_added := 0, is_available := true,
    is_backup_synced := true, fallback_path := some "/fb/y.mp3",
    checksum := some "ddd", backup_date := some 0 }

/-- A filesystem where `songV`'s fallback file matches its checksum. -/
def fsV : FS := fun p => if p = "/fb/y.mp3" then some "ddd" else none

/-! ## C1, C7, C10: storage monitor theorems -/

/-- C1: a `switch_storage` call on a valid target succeeds exactly when the
target's probe reports it available; on success `current_storage` becomes
the target and exactly one new `switch` event is appended; against an
unavailable target the call fails and the state (active storage and event
log) is unchanged. -/
theorem switch_storage_safety (st : MonitorState) (t : String)
    (p f : Option EndpointInfo) (tgt : StorageType)
    (hval : targetOf t = some tgt) :
    ((switch_storage st t p f).2.success = true ↔ isAvail (infoFor tgt p f) = true) ∧
    (isAvail (infoFor tgt p f) = true →
      (switch_storage st t p f).1.current_storage = tgt ∧
      ∃ e : StorageEvent, e.event_type = "switch" ∧
        (switch_storage st t p f).1.events = st.events ++ [e]) ∧
    (isAvail (infoFor tgt p f) = false →
      (switch_storage st t p f).1 = st ∧ (switch_storage st t p f).2.success = false) := by
  by_cases h1 : t = "primary"
  · subst h1
    have htgt : tgt = StorageType.primary := by simpa [targetOf] using hval.symm
    subst htgt
    cases hp : isAvail p <;>
      simp [switch_storage, check_storage_health, infoFor, hp]
  · by_cases h2 : t = "fallback"
    · subst h2
      have htgt : tgt = StorageType.fallback := by simpa [targetOf] using hval.symm
      subst htgt
      cases hf : isAvail f <;>
        simp [switch_storage, check_storage_health, infoFor, hf]
    · simp [targetOf, h1, h2] at hval

/-- C1 witness: switching `st0` to an available fallback succeeds, makes
fallback current and appends one `switch` event. -/
theorem switch_storage_safety_witness :
    targetOf "fallback" = some StorageType.fallback ∧
    isAvail (infoFor StorageType.fallback (some (availableInfo "/p")) (some (availableInfo "/f"))) = true ∧
    (switch_storage st0 "fallback" (some (availableInfo "/p")) (some (availableInfo "/f"))).2.success = true ∧
    (switch_storage st0 "fallback" (some (availableInfo "/p")) (some (availableInfo "/f"))).1.current_storage = StorageType.fallback := by
  have h := switch_storage_safety st0 "fallback"
    (some (availableInfo "/p")) (some (availableInfo "/f")) StorageType.fallback (by decide)
  exact ⟨by decide, by decide, h.1.mpr (by decide), (h.2.1 (by decide)).1⟩

/-- C7: `check_storage_health` recommends a switch exactly when the active
storage is primary and unavailable while fallback is available, or the
active storage is fallback and primary is available (prefer-primary); in
particular with both available and primary active it is `false`. -/
theorem should_switch_iff (current : StorageType) (p f : Option EndpointInfo) :
    (check_storage_health current p f).should_switch = true ↔
      ((current = StorageType.primary ∧ isAvail p = false ∧ isAvail f = true) ∨
       (current = StorageType.fallback ∧ isAvail p = true)) := by
  cases current <;> cases hp : isAvail p <;> cases hf : isAvail f <;>
    simp [check_storage_health, hp, hf]

/-- C7 witness: both endpoints available, current primary: no switch. -/
theorem should_switch_iff_witness :
    (check_storage_health StorageType.primary
      (some (availableInfo "/p")) (some (availableInfo "/f"))).should_switch = false := by
  have h := should_switch_iff StorageType.primary
    (some (availableInfo "/p")) (some (availableInfo "/f"))
  have hno : ¬ ((StorageType.primary = StorageType.primary ∧
      isAvail (some (availableInfo "/p")) = false ∧
      isAvail (some (availableInfo "/f")) = true) ∨
      (StorageType.primary = StorageType.fallback ∧
      isAvail (some (availableInfo "/p")) = true)) := by decide
  exact Bool.eq_false_iff.mpr (fun hb => hno (h.mp hb))

lemma switchStep_self (st : MonitorState) (X : StorageType)
    (p f : Option EndpointInfo) (hcur : st.current_storage = X)
    (hav : isAvail (infoFor X p f) = true) :
    switchStep X.name p f st =
      { current_storage := X, events := st.events ++ [selfSwitchEvent X] } ∧
    (switch_storage st X.name p f).2.success = true := by
  cases X <;>
    simp_all [switchStep, switch_storage, check_storage_health, infoFor,
      StorageType.name, selfSwitchEvent]

/-- C10: switching to the already-active, available storage `X` succeeds
(there is no same-target guard), leaves `current_storage` unchanged and
appends one `switch` event recording a switch from `X` to `X`; iterating
the call appends one such event per call. -/
theorem switch_to_active_appends (st : MonitorState) (X : StorageType)
    (p f : Option EndpointInfo) (hcur : st.current_storage = X)
    (hav : isAvail (infoFor X p f) = true) :
    ((switch_storage st X.name p f).2.success = true ∧
     (switch_storage st X.name p f).1.current_storage = st.current_storage ∧
     (switch_storage st X.name p f).1.events =
       st.events ++ [{ event_type := "switch", storage_type := X.name,
                       message := "Switched from " ++ X.name ++ " to " ++ X.name }]) ∧
    ∀ n : Nat, (switchStep X.name p f)^[n] st =
      { current_storage := X,
        events := st.events ++ List.replicate n (selfSwitchEvent X) } := by
  have hiter : ∀ n : Nat, ∀ s : MonitorState, s.current_storage = X →
      (switchStep X.name p f)^[n] s =
        { current_storage := X,
          events := s.events ++ List.replicate n (selfSwitchEvent X) } := by
    intro n
    induction n with
    | zero =>
        intro s hs
        simp [Function.iterate_zero, ← hs]
    | succ k ih =>
        intro s hs
        rw [Function.iterate_succ_apply,
          (switchStep_self s X p f hs hav).1, ih _ rfl]
        simp [List.replicate_succ]
  have h1 := switchStep_self st X p f hcur hav
  refine ⟨⟨h1.2, ?_, ?_⟩, fun n => hiter n st hcur⟩
  · show (switch_storage st X.name p f).1.current_storage = st.current_storage
    have := congrArg MonitorState.current_storage h1.1
    simpa [switchStep, hcur] using this
  · have := congrArg MonitorState.events h1.1
    simpa [switchStep, selfSwitchEvent] using this

/-- C10 witness: two repeated switches to the active, available primary
each append one self-switch event. -/
theorem switch_to_active_appends_witness :
    ((switchStep StorageType.primary.name
        (some (availableInfo "/p")) (some (availableInfo "/f")))^[2] st0).events =
      List.replicate 2 (selfSwitchEvent StorageType.primary) := by
  have h := (switch_to_active_appends st0 StorageType.primary
    (some (availableInfo "/p")) (some (availableInfo "/f")) rfl (by decide)).2 2
  rw [h]
  simp [st0]

/-! ## C4, C8: storage probe theorems -/

/-- C4 (the repository's own test `test_get_storage_info_nonexistent_path`
expects a non-`None` unavailable/'error' dict here): probing a nonexistent
path, with no OS error raised, returns `None`. -/
theorem get_storage_info_nonexistent_none :
    get_storage_info (9 / 10) "/nonexistent/path"
      { path_exists := false, os_error := none, total_bytes := 0,
        free_bytes := 0, mounted := false, read_write_ok := false } = none := by
  rfl

/-- C8 counterexample: an existing path that is NOT mounted but sits at 95%
usage is classified `warning`, not `error` — the usage branch precedes the
unmounted branch in `get_storage_info`. -/
theorem get_storage_info_unmounted_warning :
    (get_storage_info (9 / 10) "/mnt/x"
      { path_exists := true, os_error := none, total_bytes := 100,
        free_bytes := 5, mounted := false,
        read_write_ok := false }).map EndpointInfo.health_status =
      some HealthStatus.warning := by
  norm_num [get_storage_info, usage_frac]

/-- C8 amended: for an existing path probed without an OS error, the
usage-based `warning` tier takes precedence: the tier is `warning` whenever
the usage ratio is at or above the threshold (mounted or not); only below
the threshold does the unmounted condition give `error`, and a mounted path
below the threshold is `healthy`. -/
theorem get_storage_info_health_precedence (thr : ℚ) (path : String)
    (pr : PathProbe) (hex : pr.path_exists = true) (hok : pr.os_error = none) :
    ∃ i : EndpointInfo, get_storage_info thr path pr = some i ∧
      (thr ≤ usage_frac pr.total_bytes pr.free_bytes →
        i.health_status = HealthStatus.warning) ∧
      (usage_frac pr.total_bytes pr.free_bytes < thr → pr.mounted = false →
        i.health_status = HealthStatus.error) ∧
      (usage_frac pr.total_bytes pr.free_bytes < thr → pr.mounted = true →
        i.health_status = HealthStatus.healthy) := by
  have hinfo : get_storage_info thr path pr = some
      { path := path, is_available := pr.mounted && pr.read_write_ok,
        is_mounted := pr.mounted, total_bytes := pr.total_bytes,
        free_bytes := pr.free_bytes,
        usage_percent := pyRound1 (usage_frac pr.total_bytes pr.free_bytes * 100),
        health_status :=
          if thr ≤ usage_frac pr.total_bytes pr.free_bytes then HealthStatus.warning
          else if pr.mounted = false then HealthStatus.error
          else HealthStatus.healthy,
        err_text := none } := by
    simp [get_storage_info, hex, hok]
  refine ⟨_, hinfo, ?_, ?_, ?_⟩
  · intro h
    simp [if_pos h]
  · intro h hm
    simp [if_neg (not_le.mpr h), hm]
  · intro h hm
    simp [if_neg (not_le.mpr h), hm]

/-- C8 witness: an existing, mounted path at 50% usage is `healthy`. -/
theorem get_storage_info_health_precedence_witness :
    (get_storage_info (9 / 10) "/p"
      { path_exists := true, os_error := none, total_bytes := 100,
        free_bytes := 50, mounted := true,
        read_write_ok := true }).map EndpointInfo.health_status =
      some HealthStatus.healthy := by
  obtain ⟨i, hi, _, _, h3⟩ := get_storage_info_health_precedence (9 / 10) "/p"
    { path_exists := true, os_error := none, total_bytes := 100,
      free_bytes := 50, mounted := true, read_write_ok := true } rfl rfl
  rw [hi]
  simp [h3 (by norm_num [usage_frac]) rfl]

/-! ## C3, C9: health-check aggregation theorems -/

/-- C3 counterexample: availability, I/O and space pass, file-system
integrity FAILS and the music-files check also fails: the music-files
branch overwrites the integrity `error`, and the run reports `warning`. -/
theorem health_check_integrity_shadowed :
    (perform_comprehensive_health_check
      { availability := true, io_performance := true,
        space := { passed := true, usage_percent := some 50 },
        file_system_integrity := false, music_files := false }).overall_status =
      HealthStatus.warning := by
  rfl

/-- C3 amended: the overall status is the one assigned by the LAST failing
check in sequence, not the worst: all five passing gives `healthy`, any
failing check prevents `healthy`, and a failing integrity check yields
`error` only when the music-files check (which runs after it and assigns
`warning` on failure) passes. -/
theorem health_aggregation_spec (c : ChecksInput) :
    (c.availability = true ∧ c.io_performance = true ∧ c.space.passed = true ∧
      c.file_system_integrity = true ∧ c.music_files = true →
      (perform_comprehensive_health_check c).overall_status = HealthStatus.healthy) ∧
    ((c.availability = false ∨ c.io_performance = false ∨ c.space.passed = false ∨
      c.file_system_integrity = false ∨ c.music_files = false) →
      (perform_comprehensive_health_check c).overall_status ≠ HealthStatus.healthy) ∧
    (c.availability = true → c.file_system_integrity = false → c.music_files = true →
      (perform_comprehensive_health_check c).overall_status = HealthStatus.error) := by
  obtain ⟨av, io, ⟨sp, up⟩, fsi, mf⟩ := c
  refine ⟨?_, ?_, ?_⟩
  · rintro ⟨rfl, rfl, hsp, rfl, rfl⟩
    simp only at hsp
    subst hsp
    simp [perform_comprehensive_health_check, tail_checks]
  · intro h
    cases av <;> cases io <;> cases sp <;> cases fsi <;> cases mf <;>
      simp_all [perform_comprehensive_health_check, tail_checks] <;>
      (cases up with
       | none => simp
       | some u =>
           by_cases h95 : (95 : ℚ) < u <;>
             by_cases h95b : u ≤ 95 <;>
               simp [h95, h95b, tail_checks, beq_iff_eq])
  · rintro rfl hfsi rfl
    simp only at hfsi
    subst hfsi
    cases sp <;>
      simp_all [perform_comprehensive_health_check, tail_checks]
    cases up with
    | none => simp
    | some u => simp [tail_checks]

lemma roundHalfEven_intCast (n : ℤ) : roundHalfEven (n : ℚ) = n := by
  simp [roundHalfEven]

lemma pyRound1_intCast (n : ℤ) : pyRound1 (n : ℚ) = (n : ℚ) := by
  unfold pyRound1
  rw [show ((n : ℚ) * 10) = ((n * 10 : ℤ) : ℚ) by push_cast; ring,
    roundHalfEven_intCast]
  push_cast
  ring

lemma perform_space_only (sp : SpaceCheck) (u : ℚ) (hp : sp.passed = false)
    (hu : sp.usage_percent = some u) :
    perform_comprehensive_health_check
      { availability := true, io_performance := true, space := sp,
        file_system_integrity := true, music_files := true } =
      { overall_status := if 95 < u then HealthStatus.error else HealthStatus.warning,
        alerts := [{ alert_type := "space",
                     severity := if 95 < u then Severity.critical
                                 else Severity.warning }] } := by
  obtain ⟨p, up⟩ := sp
  simp only at hp hu
  subst hp
  subst hu
  by_cases h95 : (95 : ℚ) < u <;>
    simp [perform_comprehensive_health_check, tail_checks, h95, beq_iff_eq]

/-- C9 counterexample: at exactly 95% utilization (with the other four
checks passing) the space alert severity is `warning` and the overall
status `warning` — the code escalates only STRICTLY above 95, while the
claim says "at or above 95%" gives `critical`/`error`. -/
theorem space_critical_threshold_strict :
    perform_comprehensive_health_check
      { availability := true, io_performance := true,
        space := check_space_utilization (9 / 10) (some (100, 5)),
        file_system_integrity := true, music_files := true } =
      { overall_status := HealthStatus.warning,
        alerts := [{ alert_type := "space", severity := Severity.warning }] } := by
  have hround : pyRound1 (95 : ℚ) = 95 := by
    rw [show (95 : ℚ) = ((95 : ℤ) : ℚ) by norm_num, pyRound1_intCast]
  have hsp : check_space_utilization (9 / 10) (some (100, 5)) =
      { passed := false, usage_percent := some 95 } := by
    simp only [check_space_utilization]
    rw [if_neg (by norm_num)]
    norm_num [hround, decide_eq_false_iff_not, SpaceCheck.mk.injEq]
  rw [hsp, perform_space_only _ 95 rfl rfl, if_neg (lt_irrefl (95 : ℚ)),
    if_neg (lt_irrefl (95 : ℚ))]

/-- C9 amended: the space check fails exactly when used/total is at or
above the warning threshold, and reports the rounded percentage; for a
failing check (the later integrity and music checks passing, which would
otherwise overwrite the status), the alert severity is `critical` with
overall `error` exactly when the reported (rounded) percentage is STRICTLY
above 95, and `warning` with overall `warning` when it is at most 95. -/
theorem space_utilization_spec (total free : Nat) (thr : ℚ) (htot : 0 < total) :
    ((check_space_utilization thr (some (total, free))).passed = false ↔
      thr ≤ ((total - free : Nat) : ℚ) / (total : ℚ)) ∧
    (check_space_utilization thr (some (total, free))).usage_percent =
      some (pyRound1 (((total - free : Nat) : ℚ) / (total : ℚ) * 100)) ∧
    ((check_space_utilization thr (some (total, free))).passed = false →
      (95 < pyRound1 (((total - free : Nat) : ℚ) / (total : ℚ) * 100) →
        perform_comprehensive_health_check
          { availability := true, io_performance := true,
            space := check_space_utilization thr (some (total, free)),
            file_system_integrity := true, music_files := true } =
          { overall_status := HealthStatus.error,
            alerts := [{ alert_type := "space", severity := Severity.critical }] }) ∧
      (pyRound1 (((total - free : Nat) : ℚ) / (total : ℚ) * 100) ≤ 95 →
        perform_comprehensive_health_check
          { availability := true, io_performance := true,
            space := check_space_utilization thr (some (total, free)),
            file_system_integrity := true, music_files := true } =
          { overall_status := HealthStatus.warning,
            alerts := [{ alert_type := "space", severity := Severity.warning }] })) := by
  have hne : ¬ total = 0 := Nat.pos_iff_ne_zero.mp htot
  have hsp : check_space_utilization thr (some (total, free)) =
      { passed := decide (((total - free : Nat) : ℚ) / (total : ℚ) * 100 < thr * 100),
        usage_percent := some (pyRound1 (((total - free : Nat) : ℚ) / (total : ℚ) * 100)) } := by
    simp only [check_space_utilization]
    rw [if_neg hne]
  have hiff : (((total - free : Nat) : ℚ) / (total : ℚ) * 100 < thr * 100) ↔
      (((total - free : Nat) : ℚ) / (total : ℚ) < thr) :=
    mul_lt_mul_right (by norm_num : (0 : ℚ) < 100)
  refine ⟨?_, ?_, ?_⟩
  · rw [hsp]
    simp only [decide_eq_false_iff_not, hiff, not_lt]
  · rw [hsp]
  · intro hfail
    have hperf := perform_space_only (check_space_utilization thr (some (total, free)))
      (pyRound1 (((total - free : Nat) : ℚ) / (total : ℚ) * 100)) hfail
      (by rw [hsp])
    constructor
    · intro h95
      rw [hperf, if_pos h95, if_pos h95]
    · intro h95
      rw [hperf, if_neg (not_lt.mpr h95), if_neg (not_lt.mpr h95)]

/-- C9 witness: 92% utilization fails the space check and, with the other
checks passing, yields a `warning` space alert and overall `warning`. -/
theorem space_utilization_spec_witness :
    (check_space_utilization (9 / 10) (some (100, 8))).passed = false ∧
    perform_comprehensive_health_check
      { availability := true, io_performance := true,
        space := check_space_utilization (9 / 10) (some (100, 8)),
        file_system_integrity := true, music_files := true } =
      { overall_status := HealthStatus.warning,
        alerts := [{ alert_type := "space", severity := Severity.warning }] } := by
  have h := space_utilization_spec 100 8 (9 / 10) (by norm_num)
  have hfail : (check_space_utilization (9 / 10) (some (100, 8))).passed = false :=
    h.1.mpr (by norm_num)
  have hround : pyRound1 (((100 - 8 : Nat) : ℚ) / (100 : ℚ) * 100) ≤ 95 := by
    rw [show (((100 - 8 : Nat) : ℚ) / (100 : ℚ) * 100) = ((92 : ℤ) : ℚ) by norm_num,
      pyRound1_intCast]
    norm_num
  exact ⟨hfail, (h.2.2 hfail).2 hround⟩

/-! ## C2: backup capacity bound -/

/-- C2 (evaluating the code at the failing input): a catalog holding 101
backed-up songs — above the bound of 100 — with ample fallback free space
comes out of `sync_backup_storage` completely unchanged: the eviction pass
removes nothing (its row access raises a swallowed `TypeError`), no backup
is attempted, and the backed-up count stays 101 > `max_backup_songs`. -/
theorem sync_backup_no_eviction :
    backedUpCount catC2 = 101 ∧
    (sync_backup_storage "/fb" (fun _ => "") 0 (some (2 ^ 31))
      (fun _ => none) catC2).2.1 = catC2 ∧
    (sync_backup_storage "/fb" (fun _ => "") 0 (some (2 ^ 31))
      (fun _ => none) catC2).2.2 =
      { backed_up := 0, failed := 0, skipped := 0, total_backup_songs := 101 } := by
  have hcount : backedUpCount catC2 = 101 := by decide
  have hfil : catC2.filter (fun s =>
      s.storage_location == StorageLocation.primary && s.is_available) = [] := by
    decide
  have hcand : get_backup_candidates catC2 = [] := by
    rw [get_backup_candidates, hfil, List.mergeSort_nil]
    rfl
  have hsync : sync_backup_storage "/fb" (fun _ => "") 0 (some (2 ^ 31))
      (fun _ => none) catC2 =
      ((fun _ => none), catC2,
       { backed_up := 0, failed := 0, skipped := 0, total_backup_songs := 101 }) := by
    have hle : max_backup_songs ≤ 101 := by decide
    simp only [sync_backup_storage]
    rw [if_neg (by norm_num : ¬ (2 : Nat) ^ 31 < 2 ^ 30)]
    simp only [hcount, cleanup_old_backups, if_pos hle, hcand, syncLoop]
  exact ⟨hcount, by rw [hsync], by rw [hsync]⟩

/-! ## C5: backup_song checksum verification -/

/-- C5: for a song whose source file exists and whose destination differs
from the source path, `backup_song` with a corrupted copy (destination
digest differing from the source digest) returns `false`, deletes the
partial fallback copy and leaves the catalog untouched; with a faithful
copy it returns `true`, keeps the fallback file and updates the song's
record to `storage_location = 'both'` with `fallback_path`, `checksum` and
`backup_date` set. -/
theorem backup_song_spec (fallback_dir : String) (copy_out : String → String)
    (now : Nat) (fs : FS) (cat : List Song) (song : Song) (src_digest : String)
    (hsrc : fs song.filepath = some src_digest)
    (hne : song.filepath ≠ fallback_dir ++ "/" ++ basename song.filepath) :
    (copy_out song.filepath ≠ src_digest →
      (backup_song fallback_dir copy_out now fs cat song).2.2 = false ∧
      (backup_song fallback_dir copy_out now fs cat song).2.1 = cat ∧
      (backup_song fallback_dir copy_out now fs cat song).1
        (fallback_dir ++ "/" ++ basename song.filepath) = none) ∧
    (copy_out song.filepath = src_digest →
      (backup_song fallback_dir copy_out now fs cat song).2.2 = true ∧
      (backup_song fallback_dir copy_out now fs cat song).1
        (fallback_dir ++ "/" ++ basename song.filepath) = some src_digest ∧
      ∀ s ∈ (backup_song fallback_dir copy_out now fs cat song).2.1,
        s.id = song.id →
          s.storage_location = StorageLocation.both ∧
          s.fallback_path = some (fallback_dir ++ "/" ++ basename song.filepath) ∧
          s.checksum = some src_digest ∧
          s.backup_date = some now) := by
  constructor
  · intro h
    have hcond : src_digest ≠ copy_out song.filepath := fun e => h e.symm
    simp only [backup_song, hsrc, get_file_checksum, if_neg hne,
      eq_self_iff_true, if_true, ite_true, Option.getD_some]
    rw [if_pos hcond]
    exact ⟨rfl, rfl, by simp⟩
  · intro h
    have hcond : ¬ src_digest ≠ copy_out song.filepath := by simp [h]
    simp only [backup_song, hsrc, get_file_checksum, if_neg hne,
      eq_self_iff_true, if_true, ite_true, Option.getD_some]
    rw [if_neg hcond]
    refine ⟨rfl, by simp [h], ?_⟩
    intro s hs hid
    obtain ⟨t, ht, rfl⟩ := List.mem_map.mp hs
    by_cases hm : t.id = song.id
    · simp [hm, h]
    · rw [if_neg hm] at hid ⊢
      exact absurd hid hm

/-- C5 witness: a faithful copy of `songW` succeeds and marks the record
`both`. -/
theorem backup_song_spec_witness :
    (backup_song "/fb" (fun _ => "d1") 5 fsW [songW] songW).2.2 = true ∧
    ∀ s ∈ (backup_song "/fb" (fun _ => "d1") 5 fsW [songW] songW).2.1,
      s.id = songW.id → s.storage_location = StorageLocation.both := by
  have h := backup_song_spec "/fb" (fun _ => "d1") 5 fsW [songW] songW "d1"
    (by decide) (by decide)
  obtain ⟨hs, _, hrec⟩ := h.2 rfl
  exact ⟨hs, fun s hsm hid => (hrec s hsm hid).1⟩

/-! ## C6: verify_backup_integrity -/

/-- C6 counterexample: a catalog entry claiming a fallback copy whose
stored checksum is the empty string: the fallback file exists and its
recomputed digest `abc` differs from the stored value, yet the run counts
it VERIFIED (the falsy-checksum guard skips the comparison) and reports no
corruption. -/
theorem verify_empty_checksum_not_detected :
    songC6.checksum = some "" ∧
    get_file_checksum fsC6 (fb_path songC6) = "abc" ∧
    get_file_checksum fsC6 (fb_path songC6) ≠ "" ∧
    (verify_backup_integrity fsC6 [songC6]).2 =
      { verified := 1, corrupted := 0, missing := 0 } ∧
    (verify_backup_integrity fsC6 [songC6]).1 = [songC6] := by
  refine ⟨rfl, by decide, by decide, by decide, by decide⟩

lemma demote_if_ids_cons (i : Nat) (ids : List Nat) (t : Song) :
    demote_if_ids ids (if t.id = i then demote_missing t else t) =
      demote_if_ids (i :: ids) t := by
  by_cases h : t.id = i
  · by_cases h2 : t.id ∈ ids <;>
      simp [demote_if_ids, demote_missing, h, h2]
  · by_cases h2 : t.id ∈ ids <;>
      simp [demote_if_ids, h, h2]

lemma verify_fold_counts (fs : FS) (snap : List Song) :
    ∀ (cat0 : List Song) (r0 : IntegrityResults),
      (snap.foldl (verify_step fs) (cat0, r0)).2 =
        { verified := r0.verified +
            (snap.filter (fun s => verified_in fs s)).length,
          corrupted := r0.corrupted +
            (snap.filter (fun s => corrupted_in fs s)).length,
          missing := r0.missing +
            (snap.filter (fun s => missing_in fs s)).length } := by
  induction snap with
  | nil => intro cat0 r0; simp
  | cons s rest ih =>
      intro cat0 r0
      by_cases h1 : (fs (fb_path s)).isNone = true
      · have hmv : missing_in fs s = true := h1
        have hcv : corrupted_in fs s = false := by
          simp [corrupted_in, missing_in, h1]
        have hvv : verified_in fs s = false := by
          simp [verified_in, missing_in, h1]
        rw [List.foldl_cons, verify_step, if_pos h1, ih]
        simp [List.filter_cons, hmv, hcv, hvv, IntegrityResults.mk.injEq]
        omega
      · have hmv : missing_in fs s = false := by
          simp only [missing_in] at h1 ⊢
          exact Bool.eq_false_iff.mpr h1
        by_cases h2 : (checksum_truthy s &&
            !(get_file_checksum fs (fb_path s) == s.checksum.getD "")) = true
        · have hcv : corrupted_in fs s = true := by
            simp [corrupted_in, hmv, h2]
          have hvv : verified_in fs s = false := by
            simp [verified_in, hmv, h2]
          rw [List.foldl_cons, verify_step, if_neg h1, if_pos h2, ih]
          simp [List.filter_cons, hmv, hcv, hvv, IntegrityResults.mk.injEq]
          omega
        · have hcv : corrupted_in fs s = false := by
            simp [corrupted_in, hmv, h2]
          have hvv : verified_in fs s = true := by
            simp [verified_in, hmv, h2]
          rw [List.foldl_cons, verify_step, if_neg h1, if_neg h2, ih]
          simp [List.filter_cons, hmv, hcv, hvv, IntegrityResults.mk.injEq]
          omega

lemma verify_fold_cat (fs : FS) (snap : List Song) :
    ∀ (cat0 : List Song) (r0 : IntegrityResults),
      (snap.foldl (verify_step fs) (cat0, r0)).1 =
        cat0.map (demote_if_ids
          ((snap.filter (fun s => missing_in fs s)).map Song.id)) := by
  induction snap with
  | nil =>
      intro cat0 r0
      have hmapid : List.map (demote_if_ids []) cat0 = List.map id cat0 :=
        List.map_congr_left (fun a _ => by simp [demote_if_ids])
      simp only [List.foldl_nil, List.filter_nil, List.map_nil]
      rw [hmapid, List.map_id]
  | cons s rest ih =>
      intro cat0 r0
      by_cases h1 : (fs (fb_path s)).isNone = true
      · rw [List.foldl_cons, verify_step, if_pos h1, ih, List.map_map]
        have hfil : (s :: rest).filter (fun x => missing_in fs x) =
            s :: rest.filter (fun x => missing_in fs x) := by
          simp [List.filter_cons, missing_in, h1]
        rw [hfil]
        refine List.map_congr_left ?_
        intro t _
        exact demote_if_ids_cons s.id _ t
      · have hfil : (s :: rest).filter (fun x => missing_in fs x) =
            rest.filter (fun x => missing_in fs x) := by
          simp [List.filter_cons, missing_in, h1]
        by_cases h2 : (checksum_truthy s &&
            !(get_file_checksum fs (fb_path s) == s.checksum.getD "")) = true
        · rw [List.foldl_cons, verify_step, if_neg h1, if_pos h2, ih, hfil]
        · rw [List.foldl_cons, verify_step, if_neg h1, if_neg h2, ih, hfil]

/-- C6 amended: over the snapshot of entries claiming a fallback copy,
`verify_backup_integrity` counts missing exactly the entries whose fallback
file does not exist (demoting each such record to primary-only), counts
corrupted exactly the entries whose file exists, whose STORED checksum is
non-empty and differs from the recomputed digest — leaving those records
untouched — and counts all remaining entries (including those with a NULL
or empty stored checksum, whose files are never compared) as verified. -/
theorem verify_integrity_spec (fs : FS) (cat : List Song)
    (hids : (cat.map Song.id).Nodup) :
    (verify_backup_integrity fs cat).2.missing =
      ((cat.filter claims_backup).filter (fun s => missing_in fs s)).length ∧
    (verify_backup_integrity fs cat).2.corrupted =
      ((cat.filter claims_backup).filter (fun s => corrupted_in fs s)).length ∧
    (verify_backup_integrity fs cat).2.verified =
      ((cat.filter claims_backup).filter (fun s => verified_in fs s)).length ∧
    (verify_backup_integrity fs cat).1 =
      cat.map (demote_if_ids
        (((cat.filter claims_backup).filter (fun s => missing_in fs s)).map Song.id)) ∧
    (∀ s ∈ cat.filter claims_backup, corrupted_in fs s = true →
      s ∈ (verify_backup_integrity fs cat).1) := by
  have hc := verify_fold_counts fs (cat.filter claims_backup) cat
    { verified := 0, corrupted := 0, missing := 0 }
  have hm := verify_fold_cat fs (cat.filter claims_backup) cat
    { verified := 0, corrupted := 0, missing := 0 }
  refine ⟨?_, ?_, ?_, hm, ?_⟩
  · rw [show (verify_backup_integrity fs cat).2 =
      ((cat.filter claims_backup).foldl (verify_step fs)
        (cat, { verified := 0, corrupted := 0, missing := 0 })).2 from rfl, hc]
    simp
  · rw [show (verify_backup_integrity fs cat).2 =
      ((cat.filter claims_backup).foldl (verify_step fs)
        (cat, { verified := 0, corrupted := 0, missing := 0 })).2 from rfl, hc]
    simp
  · rw [show (verify_backup_integrity fs cat).2 =
      ((cat.filter claims_backup).foldl (verify_step fs)
        (cat, { verified := 0, corrupted := 0, missing := 0 })).2 from rfl, hc]
    simp
  · intro s hs hcor
    have hscat : s ∈ cat := List.mem_of_mem_filter hs
    have hnot : s.id ∉ ((cat.filter claims_backup).filter
        (fun x => missing_in fs x)).map Song.id := by
      intro hin
      obtain ⟨m, hmmem, hmid⟩ := List.mem_map.mp hin
      have hmmiss : missing_in fs m = true := List.of_mem_filter hmmem
      have hmcat : m ∈ cat :=
        List.mem_of_mem_filter (List.mem_of_mem_filter hmmem)
      have : m = s := List.inj_on_of_nodup_map hids hmcat hscat hmid
      subst this
      simp [corrupted_in, hmmiss] at hcor
    rw [show (verify_backup_integrity fs cat).1 =
      ((cat.filter claims_backup).foldl (verify_step fs)
        (cat, { verified := 0, corrupted := 0, missing := 0 })).1 from rfl, hm]
    exact List.mem_map.mpr ⟨s, hscat, by unfold demote_if_ids; rw [if_neg hnot]⟩

/-- C6 witness: a single intact backup with a proper stored checksum is
counted verified. -/
theorem verify_integrity_spec_witness :
    (verify_backup_integrity fsV [songV]).2.verified = 1 := by
  have h := verify_integrity_spec fsV [songV] (by decide)
  rw [h.2.2.1]
  decide

end PiCode
